import Mathlib

/-!
Verification of the `JobScheduler` core of the Student-Business backend
(`backend/jobs/scheduler.py`): the time-windowed query + idempotent-dispatch
pattern of the background reminder jobs, the job registry, and the module-level
scheduler singleton.

Shallow embedding conventions:
* Timestamps are integers (minutes on the UTC timeline); the store compares
  them with `≤`, mirroring the `gte`/`lte` string comparisons on ISO
  timestamps that the source performs.
* A row fetched by a job is a structure mirroring the joined Supabase row;
  a Python `row.get(key, default)` on an optional joined object becomes
  `Option.getD`.
* Side effects of a firing (sender invocations, flag updates, error logs) are
  recorded as an `Action` trace, in execution order.
* External outcomes (store query/update failures, sender results) are supplied
  by a `Behavior` record: `some msg` means the store call raises `msg`;
  sender results are the booleans the services return.  Per
  `backend/services/email_service.py` and `whatsapp_service.py` the senders
  catch transport errors internally and return `False`; they never raise into
  the dispatcher, so the only statement in a row body that can raise is the
  flag-update write.
-/

namespace StudentBusiness

/-- A joined `profiles` row: `full_name`, `email`, `phone` are nullable. -/
structure Profile where
  full_name : Option String
  email : Option String
  phone : Option String
deriving Repr, DecidableEq

/-- The default used for `row.get('profiles', {})` when the join is missing. -/
def emptyProfile : Profile := ⟨none, none, none⟩

/-- A joined `enrollments` row carrying its (possibly missing) profile. -/
structure Enrollment where
  student_id : Nat
  profiles : Option Profile
deriving Repr, DecidableEq

/-- A `sessions` row, with the joined enrollments and both reminder flags. -/
structure Session where
  id : Nat
  title : Option String
  scheduled_at : Int
  zoom_join_url : Option String
  meeting_link : Option String
  enrollments : List Enrollment
  reminder_24h_sent : Bool
  reminder_15min_sent : Bool
deriving Repr, DecidableEq

/-- A `payments` row with its joined profile. -/
structure Payment where
  id : Nat
  profiles : Option Profile
  amount : Int
  payment_link : Option String
  status : String
  created_at : Int
  reminder_sent : Bool
deriving Repr, DecidableEq

/-- An `imported_leads` row. -/
structure Lead where
  id : Nat
  name : Option String
  email : Option String
  status : String
  created_at : Int
  follow_up_sent : Bool
deriving Repr, DecidableEq

/-- The two session reminder kinds dispatched by `_send_session_reminder`
(the strings `'24h'` and `'15min'` in the source). -/
inductive ReminderType
  | h24
  | min15
deriving Repr, DecidableEq

/-- Observable side effects of a job firing, in execution order. -/
inductive Action
  | emailSent (to_email subject content : String)
  | whatsappSent (to_number template_name : String) (params : List (String × String))
  | flagUpdate (tableName fieldName : String) (rowId : Nat)
  | errorLogged (msg : String)
deriving Repr, DecidableEq

/-- Outcomes of the external collaborators during one firing.  `queryFails t =
some msg` means the windowed query on table `t` raises `msg`; `updateFails t i
= some msg` means the point update of row `i` in table `t` raises `msg`.
`emailResult`/`whatsappResult` are the booleans returned by the senders
(which never raise, see module comment). -/
structure Behavior where
  emailResult : String → String → String → Bool
  whatsappResult : String → String → List (String × String) → Bool
  queryFails : String → Option String
  updateFails : String → Nat → Option String

/-- Predicate for sender invocations in a trace. -/
def Action.isSend : Action → Bool
  | Action.emailSent _ _ _ => true
  | Action.whatsappSent _ _ _ => true
  | _ => false

/-- Count of email sender invocations in a trace. -/
def countEmailActions (tr : List Action) : Nat :=
  tr.countP (fun a => match a with | Action.emailSent _ _ _ => true | _ => false)

/-- Count of WhatsApp sender invocations in a trace. -/
def countWhatsappActions (tr : List Action) : Nat :=
  tr.countP (fun a => match a with | Action.whatsappSent _ _ _ => true | _ => false)

/-! ### Message composition (`_format_reminder_email` and inline templates) -/

/-- `JobScheduler._format_reminder_email`, with the f-string holes spliced. -/
def format_reminder_email (name title scheduled_at : String) (link : Option String)
    (rt : ReminderType) : String :=
  let time_text := if rt = ReminderType.h24 then "tomorrow" else "in 15 minutes"
  let linkBlock :=
    match link with
    | some l => "<p><strong>Join Meeting:</strong><br><a href=\"" ++ l ++ "\">Join Now</a></p>"
    | none => "<p>Meeting link will be shared shortly.</p>"
  "<html><body><h2>Hi " ++ name ++ ",</h2><p>Your session <strong>\"" ++ title ++
    "\"</strong> starts " ++ time_text ++ "!</p><p><strong>Scheduled Time:</strong> " ++
    scheduled_at ++ "</p>" ++ linkBlock ++
    "<p>See you there!</p><p>If you have any questions, please contact support.</p></body></html>"

/-- The inline payment reminder email template of `_send_payment_reminder`. -/
def format_payment_email (name : String) (amount : Int) (link : Option String) : String :=
  let linkBlock :=
    match link with
    | some l => "<p><a href=\"" ++ l ++ "\">Complete Payment</a></p>"
    | none => ""
  "<html><body><h2>Hi " ++ name ++ ",</h2>" ++
    "<p>This is a friendly reminder about your pending payment.</p>" ++
    "<p><strong>Amount:</strong> Rs" ++ toString amount ++ "</p>" ++ linkBlock ++
    "<p>If you have already paid, please ignore this message.</p></body></html>"

/-- The inline lead follow-up email template of `_send_lead_follow_up`. -/
def format_lead_email (name : String) : String :=
  "<html><body><h2>Hi " ++ name ++ ",</h2>" ++
    "<p>We noticed you showed interest in our courses. Would you like to learn more?</p>" ++
    "<p>Reply to this email or schedule a call with us to discuss how we can help you achieve your goals.</p>" ++
    "<p><a href=\"http://your-app.com/cta\">Explore Courses</a></p></body></html>"

/-! ### Session reminder dispatch (`_send_session_reminder`) -/

/-- The flag column written for a reminder kind (`field = 'reminder_24h_sent'
if reminder_type == '24h' else 'reminder_15min_sent'`). -/
def reminderField (rt : ReminderType) : String :=
  if rt = ReminderType.h24 then "reminder_24h_sent" else "reminder_15min_sent"

/-- Read the flag selected by `rt` from a session row. -/
def Session.sentFlag (s : Session) (rt : ReminderType) : Bool :=
  match rt with
  | ReminderType.h24 => s.reminder_24h_sent
  | ReminderType.min15 => s.reminder_15min_sent

/-- Set the flag selected by `rt` on a session row. -/
def Session.setFlag (rt : ReminderType) (s : Session) : Session :=
  match rt with
  | ReminderType.h24 => { s with reminder_24h_sent := true }
  | ReminderType.min15 => { s with reminder_15min_sent := true }

/-- The store update `supabase.table('sessions').update({field: True}).eq('id', rowId)`. -/
def updateSessionFlag (table : List Session) (rowId : Nat) (rt : ReminderType) : List Session :=
  table.map (fun s => if s.id = rowId then Session.setFlag rt s else s)

/-- `meeting_link = session.get('zoom_join_url') or session.get('meeting_link')`. -/
def Session.meetingLink (s : Session) : Option String :=
  match s.zoom_join_url with
  | some u => some u
  | none => s.meeting_link

/-- The per-enrollment body of the loop in `_send_session_reminder`: an email
send when the profile has an email, a WhatsApp send when it has a phone.  The
boolean results returned by the services are discarded, as in the source. -/
def enrollmentSendActions (beh : Behavior) (session_title scheduled_at : String)
    (meeting_link : Option String) (rt : ReminderType) (enrollment : Enrollment) : List Action :=
  let profile := enrollment.profiles.getD emptyProfile
  let student_name := profile.full_name.getD "Student"
  let emailActs :=
    match profile.email with
    | some student_email =>
        let subject := (if rt = ReminderType.h24 then "Starts Tomorrow" else "Starting Soon") ++
          ": " ++ session_title
        let content := format_reminder_email student_name session_title scheduled_at meeting_link rt
        let _ok := beh.emailResult student_email subject content
        [Action.emailSent student_email subject content]
    | none => []
  let waActs :=
    match profile.phone with
    | some student_phone =>
        let params := [("student_name", student_name), ("session_title", session_title),
          ("time", scheduled_at), ("meeting_link", meeting_link.getD "Will be shared soon")]
        let _ok := beh.whatsappResult student_phone "session_reminder" params
        [Action.whatsappSent student_phone "session_reminder" params]
    | none => []
  emailActs ++ waActs

/-- All sender invocations performed for one session row (the enrollment loop). -/
def sessionSendActs (beh : Behavior) (session : Session) (rt : ReminderType) : List Action :=
  session.enrollments.flatMap
    (enrollmentSendActions beh (session.title.getD "Upcoming Session")
      (toString session.scheduled_at) session.meetingLink rt)

/-- `JobScheduler._send_session_reminder`: perform all sends for the row, then
attempt the flag update; an exception from the update is caught by the row
level handler and logged, leaving the store untouched.  Returns the updated
store and the action trace of the row. -/
def sendSessionReminder (beh : Behavior) (table : List Session) (session : Session)
    (rt : ReminderType) : List Session × List Action :=
  let sendActs := sessionSendActs beh session rt
  match beh.updateFails "sessions" session.id with
  | some msg =>
      (table, sendActs ++
        [Action.errorLogged ("Error sending reminder for session " ++ toString session.id ++
          ": " ++ msg)])
  | none =>
      (updateSessionFlag table session.id rt,
        sendActs ++ [Action.flagUpdate "sessions" (reminderField rt) session.id])

/-- The action trace of one session row, independent of the store contents. -/
def sessionRowActions (beh : Behavior) (session : Session) (rt : ReminderType) : List Action :=
  match beh.updateFails "sessions" session.id with
  | some msg =>
      sessionSendActs beh session rt ++
        [Action.errorLogged ("Error sending reminder for session " ++ toString session.id ++
          ": " ++ msg)]
  | none =>
      sessionSendActs beh session rt ++
        [Action.flagUpdate "sessions" (reminderField rt) session.id]

/-- The windowed query of `check_session_reminders_24h`: sessions with
`scheduled_at` in the closed interval `[now+23h, now+25h]` whose
`reminder_24h_sent` flag is false. -/
def selectSessions24h (now : Int) (table : List Session) : List Session :=
  let start_window := now + 23 * 60
  let end_window := now + 25 * 60
  table.filter (fun s =>
    decide (start_window ≤ s.scheduled_at) && decide (s.scheduled_at ≤ end_window) &&
      (s.reminder_24h_sent == false))

/-- The `for session in sessions` loop of the 24h job: process the fetched
snapshot row by row, threading the store and appending each row trace. -/
def runRows24 (beh : Behavior) (t : List Session) : List Session → List Session × List Action
  | [] => (t, [])
  | row :: rest =>
      let r := sendSessionReminder beh t row ReminderType.h24
      let rec2 := runRows24 beh r.1 rest
      (rec2.1, r.2 ++ rec2.2)

/-- The body of `check_session_reminders_24h` up to its failure boundary: the
windowed query (which may raise) followed by the dispatch loop. -/
def check_session_reminders_24h_body (beh : Behavior) (now : Int) (table : List Session) :
    Except String (List Session × List Action) :=
  match beh.queryFails "sessions" with
  | some msg => Except.error msg
  | none => Except.ok (runRows24 beh table (selectSessions24h now table))

/-- `JobScheduler.check_session_reminders_24h`: the whole body is wrapped in a
failure boundary; any exception is caught and logged with the job name, so the
handler always returns normally. -/
def check_session_reminders_24h (beh : Behavior) (now : Int) (table : List Session) :
    List Session × List Action :=
  match check_session_reminders_24h_body beh now table with
  | Except.ok r => r
  | Except.error e => (table, [Action.errorLogged ("Error in 24h reminder job: " ++ e)])

/-! ### Payment follow-up dispatch (`check_pending_payments`, `_send_payment_reminder`) -/

/-- The store update `supabase.table('payments').update({'reminder_sent': True})`. -/
def updatePaymentFlag (table : List Payment) (rowId : Nat) : List Payment :=
  table.map (fun p => if p.id = rowId then { p with reminder_sent := true } else p)

/-- All sender invocations performed for one payment row. -/
def paymentSendActs (beh : Behavior) (payment : Payment) : List Action :=
  let profile := payment.profiles.getD emptyProfile
  let student_name := profile.full_name.getD "Student"
  let emailActs :=
    match profile.email with
    | some student_email =>
        let content := format_payment_email student_name payment.amount payment.payment_link
        let _ok := beh.emailResult student_email "Payment Reminder" content
        [Action.emailSent student_email "Payment Reminder" content]
    | none => []
  let waActs :=
    match profile.phone with
    | some student_phone =>
        let params := [("student_name", student_name), ("amount", toString payment.amount),
          ("payment_link", payment.payment_link.getD "Contact admin for payment link")]
        let _ok := beh.whatsappResult student_phone "payment_reminder" params
        [Action.whatsappSent student_phone "payment_reminder" params]
    | none => []
  emailActs ++ waActs

/-- `JobScheduler._send_payment_reminder`: sends, then the flag update guarded
by the row-level failure boundary. -/
def sendPaymentReminder (beh : Behavior) (table : List Payment) (payment : Payment) :
    List Payment × List Action :=
  let sendActs := paymentSendActs beh payment
  match beh.updateFails "payments" payment.id with
  | some msg =>
      (table, sendActs ++
        [Action.errorLogged ("Error sending payment reminder for " ++ toString payment.id ++
          ": " ++ msg)])
  | none =>
      (updatePaymentFlag table payment.id,
        sendActs ++ [Action.flagUpdate "payments" "reminder_sent" payment.id])

/-- The action trace of one payment row, independent of the store contents. -/
def paymentRowActions (beh : Behavior) (payment : Payment) : List Action :=
  match beh.updateFails "payments" payment.id with
  | some msg =>
      paymentSendActs beh payment ++
        [Action.errorLogged ("Error sending payment reminder for " ++ toString payment.id ++
          ": " ++ msg)]
  | none =>
      paymentSendActs beh payment ++ [Action.flagUpdate "payments" "reminder_sent" payment.id]

/-- The query of `check_pending_payments`: pending payments created at least
three days ago whose `reminder_sent` flag is false. -/
def selectPendingPayments (now : Int) (table : List Payment) : List Payment :=
  let cutoff_date := now - 3 * 1440
  table.filter (fun p =>
    (p.status == "pending") && decide (p.created_at ≤ cutoff_date) && (p.reminder_sent == false))

/-- The `for payment in payments` loop of the payment job. -/
def runPaymentRows (beh : Behavior) (t : List Payment) : List Payment → List Payment × List Action
  | [] => (t, [])
  | row :: rest =>
      let r := sendPaymentReminder beh t row
      let rec2 := runPaymentRows beh r.1 rest
      (rec2.1, r.2 ++ rec2.2)

/-- The body of `check_pending_payments` up to its failure boundary. -/
def check_pending_payments_body (beh : Behavior) (now : Int) (table : List Payment) :
    Except String (List Payment × List Action) :=
  match beh.queryFails "payments" with
  | some msg => Except.error msg
  | none => Except.ok (runPaymentRows beh table (selectPendingPayments now table))

/-- `JobScheduler.check_pending_payments` with its failure boundary. -/
def check_pending_payments (beh : Behavior) (now : Int) (table : List Payment) :
    List Payment × List Action :=
  match check_pending_payments_body beh now table with
  | Except.ok r => r
  | Except.error e => (table, [Action.errorLogged ("Error in payment reminder job: " ++ e)])

/-! ### Lead follow-up dispatch (`check_lead_follow_ups`, `_send_lead_follow_up`) -/

/-- The store update `supabase.table('imported_leads').update({'follow_up_sent': True})`. -/
def updateLeadFlag (table : List Lead) (rowId : Nat) : List Lead :=
  table.map (fun l => if l.id = rowId then { l with follow_up_sent := true } else l)

/-- All sender invocations performed for one lead row (email only). -/
def leadSendActs (beh : Behavior) (lead : Lead) : List Action :=
  match lead.email with
  | some email =>
      let content := format_lead_email (lead.name.getD "There")
      let _ok := beh.emailResult email "Following up on your interest" content
      [Action.emailSent email "Following up on your interest" content]
  | none => []

/-- `JobScheduler._send_lead_follow_up`: send, then the flag update guarded by
the row-level failure boundary. -/
def sendLeadFollowUp (beh : Behavior) (table : List Lead) (lead : Lead) :
    List Lead × List Action :=
  let sendActs := leadSendActs beh lead
  match beh.updateFails "imported_leads" lead.id with
  | some msg =>
      (table, sendActs ++
        [Action.errorLogged ("Error sending lead follow-up for " ++ toString lead.id ++
          ": " ++ msg)])
  | none =>
      (updateLeadFlag table lead.id,
        sendActs ++ [Action.flagUpdate "imported_leads" "follow_up_sent" lead.id])

/-- The query of `check_lead_follow_ups`: new leads created at least three days
ago whose `follow_up_sent` flag is false. -/
def selectLeadFollowUps (now : Int) (table : List Lead) : List Lead :=
  let cutoff_date := now - 3 * 1440
  table.filter (fun l =>
    (l.status == "new") && decide (l.created_at ≤ cutoff_date) && (l.follow_up_sent == false))

/-- The `for lead in leads` loop of the lead job. -/
def runLeadRows (beh : Behavior) (t : List Lead) : List Lead → List Lead × List Action
  | [] => (t, [])
  | row :: rest =>
      let r := sendLeadFollowUp beh t row
      let rec2 := runLeadRows beh r.1 rest
      (rec2.1, r.2 ++ rec2.2)

/-- The body of `check_lead_follow_ups` up to its failure boundary. -/
def check_lead_follow_ups_body (beh : Behavior) (now : Int) (table : List Lead) :
    Except String (List Lead × List Action) :=
  match beh.queryFails "imported_leads" with
  | some msg => Except.error msg
  | none => Except.ok (runLeadRows beh table (selectLeadFollowUps now table))

/-- `JobScheduler.check_lead_follow_ups` with its failure boundary. -/
def check_lead_follow_ups (beh : Behavior) (now : Int) (table : List Lead) :
    List Lead × List Action :=
  match check_lead_follow_ups_body beh now table with
  | Except.ok r => r
  | Except.error e => (table, [Action.errorLogged ("Error in lead follow-up job: " ++ e)])

/-! ### Sender embedding (`EmailService.send_email`) -/

/-- `EmailService.send_email` from `backend/services/email_service.py`,
abstracted over the HTTP transport: `transport` returns the response status
code, or raises a message.  Returns the boolean result together with the lines
the service prints; it never raises to its caller. -/
def EmailService.send_email (api_key : Option String)
    (transport : String → String → String → Except String Nat)
    (to_email subject content : String) : Bool × List String :=
  match api_key with
  | none => (false, ["SendGrid API Key missing"])
  | some _ =>
      match transport to_email subject content with
      | Except.ok status => (status == 200 || status == 201 || status == 202, [])
      | Except.error e => (false, ["Error sending email: " ++ e])

/-! ### Job registry (`register_all_jobs`) and scheduler configuration -/

/-- Trigger specifications used by `register_all_jobs` (APScheduler
`IntervalTrigger(minutes=…)`, `CronTrigger(hour='*/n')`,
`CronTrigger(hour=h, minute=m)`). -/
inductive Trigger
  | interval (minutes : Nat)
  | cronEveryNHours (n : Nat)
  | cronDailyAt (hour minute : Nat)
deriving Repr, DecidableEq

/-- One `scheduler.add_job(...)` registration. -/
structure JobDef where
  id : String
  name : String
  trig : Trigger
  replace_existing : Bool
deriving Repr, DecidableEq

/-- `JobScheduler.register_all_jobs`: the six job registrations, in source order. -/
def register_all_jobs : List JobDef :=
  [ ⟨"session_reminders_24h", "24-hour session reminders", Trigger.interval 10, true⟩,
    ⟨"session_reminders_15min", "15-minute session reminders", Trigger.interval 5, true⟩,
    ⟨"recording_notifications", "Recording availability notifications", Trigger.interval 30, true⟩,
    ⟨"assignment_reminders", "Assignment deadline reminders", Trigger.cronEveryNHours 6, true⟩,
    ⟨"payment_reminders", "Pending payment reminders", Trigger.cronDailyAt 10 0, true⟩,
    ⟨"lead_follow_ups", "Lead follow-up emails", Trigger.cronDailyAt 9 0, true⟩ ]

/-- The `job_defaults` passed to `BackgroundScheduler` in `JobScheduler.__init__`
(`misfire_grace_time` is in seconds). -/
structure JobDefaults where
  coalesce : Bool
  max_instances : Nat
  misfire_grace_time : Nat
deriving Repr, DecidableEq

/-- The configuration constructed by `JobScheduler.__init__`:
`coalesce=True, max_instances=1, misfire_grace_time=300`. -/
def schedulerJobDefaults : JobDefaults := ⟨true, 1, 300⟩

/-- Modelled from the spec: the trigger fire-dispatch decision of the
underlying scheduler (APScheduler), which is third-party code not under this
repository's sources.  Per the spec, a fire staler than the grace window is
discarded; a fire for a job already running its maximum number of instances is
dropped rather than queued; otherwise the job body runs.  Times are in
seconds. -/
inductive FireOutcome
  | run
  | droppedRunning
  | discardedStale
deriving Repr, DecidableEq

/-- Modelled from the spec: how one trigger fire is dispatched given the
number of currently running instances of the job. -/
def dispatchFire (cfg : JobDefaults) (runningInstances : Nat) (now fireTime : Int) : FireOutcome :=
  if now - fireTime > (cfg.misfire_grace_time : Int) then FireOutcome.discardedStale
  else if cfg.max_instances ≤ runningInstances then FireOutcome.droppedRunning
  else FireOutcome.run

/-- Modelled from the spec: the running-instance count after dispatching a
fire (a run starts a new instance; dropped or discarded fires start nothing). -/
def stepFire (cfg : JobDefaults) (runningInstances : Nat) (now fireTime : Int) : Nat :=
  match dispatchFire cfg runningInstances now fireTime with
  | FireOutcome.run => runningInstances + 1
  | _ => runningInstances

/-- Modelled from the spec: with coalescing enabled, a nonempty backlog of
missed fires is combined into a single catch-up run at the latest fire time. -/
def coalesceMissedFires (cfg : JobDefaults) (missed : List Int) : List Int :=
  if cfg.coalesce then
    match missed with
    | [] => []
    | f :: fs => [(f :: fs).foldl max f]
  else missed

/-! ### Module-level singleton (`init_scheduler`, `get_scheduler`, `shutdown_scheduler`) -/

/-- A constructed `JobScheduler` object: `uid` identifies the allocation, the
registered jobs and the running flag mirror `register_all_jobs`/`start`. -/
structure SchedulerInstance where
  uid : Nat
  jobs : List JobDef
  running : Bool
deriving Repr, DecidableEq

/-- `JobScheduler.__init__`: a fresh instance with no jobs, not running. -/
def JobScheduler.new (uid : Nat) : SchedulerInstance := ⟨uid, [], false⟩

/-- `JobScheduler.register_all_jobs` applied to an instance. -/
def SchedulerInstance.registerAll (s : SchedulerInstance) : SchedulerInstance :=
  { s with jobs := register_all_jobs }

/-- `JobScheduler.start`: a no-op when already running. -/
def SchedulerInstance.start (s : SchedulerInstance) : SchedulerInstance :=
  if s.running then s else { s with running := true }

/-- The module-global state: `_scheduler_instance` plus an allocation counter
that gives fresh constructions distinct identities. -/
structure GlobalSchedulerState where
  nextUid : Nat
  inst : Option SchedulerInstance
deriving Repr, DecidableEq

/-- `init_scheduler`: construct, register and start a scheduler only when the
global is `None`; otherwise return the existing instance unchanged. -/
def init_scheduler (g : GlobalSchedulerState) : SchedulerInstance × GlobalSchedulerState :=
  match g.inst with
  | some s => (s, g)
  | none =>
      let s := SchedulerInstance.start (SchedulerInstance.registerAll (JobScheduler.new g.nextUid))
      (s, ⟨g.nextUid + 1, some s⟩)

/-- `get_scheduler`: raise `RuntimeError` when the global is `None`. -/
def get_scheduler (g : GlobalSchedulerState) : Except String SchedulerInstance :=
  match g.inst with
  | none => Except.error "Scheduler not initialized. Call init_scheduler() first."
  | some s => Except.ok s

/-- `shutdown_scheduler`: shut down and clear the global when present. -/
def shutdown_scheduler (g : GlobalSchedulerState) : GlobalSchedulerState :=
  match g.inst with
  | some _ => { g with inst := none }
  | none => g

/-! ### Concrete instances used by the witnesses -/

/-- A behavior in which every external call succeeds. -/
def sampleBeh : Behavior :=
  ⟨fun _ _ _ => true, fun _ _ _ => true, fun _ => none, fun _ _ => none⟩

/-- A behavior in which every windowed query raises. -/
def failQueryBeh : Behavior :=
  ⟨fun _ _ _ => true, fun _ _ _ => true, fun _ => some "connection refused", fun _ _ => none⟩

/-- A behavior in which the flag update of session row 1 raises. -/
def failUpdateBeh : Behavior :=
  ⟨fun _ _ _ => true, fun _ _ _ => true, fun _ => none,
    fun tbl i => if tbl == "sessions" && i == 1 then some "write timeout" else none⟩

/-- A behavior in which both senders report failure (they return false). -/
def failSendBeh : Behavior :=
  ⟨fun _ _ _ => false, fun _ _ _ => false, fun _ => none, fun _ _ => none⟩

/-- A profile with both contact methods. -/
def sampleProfile : Profile := ⟨some "Ava", some "a@x.com", some "+15551234567"⟩

/-- A session inside the 24h window (for `now = 0`), not yet reminded. -/
def sampleSession : Session :=
  ⟨1, some "Algebra", 1440, none, some "http://meet/1", [⟨7, some sampleProfile⟩], false, false⟩

/-- A session inside the 24h window whose 24h reminder was already sent. -/
def flaggedSession : Session :=
  ⟨2, some "Biology", 1440, none, none, [⟨8, some sampleProfile⟩], true, false⟩

/-- A session inside the 24h window with no enrollments. -/
def noRecipSession : Session := ⟨3, none, 1440, none, none, [], false, false⟩

/-- A session whose enrollment has a missing joined profile. -/
def missingProfileSession : Session := ⟨9, none, 1440, none, none, [⟨11, none⟩], false, false⟩

/-- A small sessions table. -/
def sampleSessions : List Session := [sampleSession, flaggedSession, noRecipSession]

/-- A pending payment past the three-day cutoff (for `now = 0`). -/
def samplePayment : Payment :=
  ⟨4, some sampleProfile, 500, some "http://pay/4", "pending", -6000, false⟩

/-- A pending payment past the cutoff with a missing joined profile. -/
def noRecipPayment : Payment := ⟨5, none, 250, none, "pending", -6000, false⟩

/-- A small payments table. -/
def samplePayments : List Payment := [samplePayment, noRecipPayment]

/-- A new lead past the three-day cutoff (for `now = 0`). -/
def sampleLead : Lead := ⟨6, some "Lee", some "lee@x.com", "new", -6000, false⟩

/-- A small leads table. -/
def sampleLeads : List Lead := [sampleLead]

/-- A transport that always raises, for exercising the email sender. -/
def failTransport : String → String → String → Except String Nat :=
  fun _ _ _ => Except.error "timeout"

/-! ### Proof infrastructure: characterizations of one firing -/

/-- Conditionally latch the 24h flag on the rows whose id lies in `D`. -/
def flagIf24 (D : List Nat) (s : Session) : Session :=
  if s.id ∈ D then Session.setFlag ReminderType.h24 s else s

/-- The ids whose session flag update succeeds during a batch. -/
def flaggedIds24 (beh : Behavior) (rows : List Session) : List Nat :=
  (rows.filter (fun r => (beh.updateFails "sessions" r.id).isNone)).map Session.id

/-- Conditionally latch the payment flag on the rows whose id lies in `D`. -/
def flagIfPay (D : List Nat) (p : Payment) : Payment :=
  if p.id ∈ D then { p with reminder_sent := true } else p

/-- The ids whose payment flag update succeeds during a batch. -/
def flaggedIdsPay (beh : Behavior) (rows : List Payment) : List Nat :=
  (rows.filter (fun r => (beh.updateFails "payments" r.id).isNone)).map Payment.id

/-- Conditionally latch the lead flag on the rows whose id lies in `D`. -/
def flagIfLead (D : List Nat) (l : Lead) : Lead :=
  if l.id ∈ D then { l with follow_up_sent := true } else l

/-- The ids whose lead flag update succeeds during a batch. -/
def flaggedIdsLead (beh : Behavior) (rows : List Lead) : List Nat :=
  (rows.filter (fun r => (beh.updateFails "imported_leads" r.id).isNone)).map Lead.id

/-! ### Basic lemmas about flag writes -/

theorem Session.setFlag_id (rt : ReminderType) (s : Session) :
    (Session.setFlag rt s).id = s.id := by
  cases rt <;> rfl

theorem Session.setFlag_scheduled_at (rt : ReminderType) (s : Session) :
    (Session.setFlag rt s).scheduled_at = s.scheduled_at := by
  cases rt <;> rfl

theorem Session.setFlag_idem (rt : ReminderType) (s : Session) :
    Session.setFlag rt (Session.setFlag rt s) = Session.setFlag rt s := by
  cases rt <;> rfl

theorem Session.setFlag_h24_main (s : Session) :
    (Session.setFlag ReminderType.h24 s).reminder_24h_sent = true := rfl

theorem Session.setFlag_h24_other (s : Session) :
    (Session.setFlag ReminderType.h24 s).reminder_15min_sent = s.reminder_15min_sent := rfl

theorem Session.sentFlag_setFlag (rt : ReminderType) (s : Session) :
    Session.sentFlag (Session.setFlag rt s) rt = true := by
  cases rt <;> rfl

/-! ### Selection lemmas -/

theorem mem_selectSessions24h (now : Int) (t : List Session) (s : Session) :
    s ∈ selectSessions24h now t ↔
      s ∈ t ∧ now + 23 * 60 ≤ s.scheduled_at ∧ s.scheduled_at ≤ now + 25 * 60 ∧
        s.reminder_24h_sent = false := by
  simp [selectSessions24h, List.mem_filter, and_assoc]

/-! ### Per-row trace lemmas -/

theorem sendSessionReminder_snd (beh : Behavior) (t : List Session) (s : Session)
    (rt : ReminderType) :
    (sendSessionReminder beh t s rt).2 = sessionRowActions beh s rt := by
  cases h : beh.updateFails "sessions" s.id <;>
    simp [sendSessionReminder, sessionRowActions, h]

theorem runRows24_snd (beh : Behavior) (rows : List Session) (t : List Session) :
    (runRows24 beh t rows).2 =
      rows.flatMap (fun row => sessionRowActions beh row ReminderType.h24) := by
  induction rows generalizing t with
  | nil => rfl
  | cons row rest ih =>
      simp [runRows24, List.flatMap_cons, sendSessionReminder_snd, ih]

/-! ### Store-after-batch characterization -/

theorem flagIf24_comp (D : List Nat) (j : Nat) (s : Session) :
    flagIf24 D (if s.id = j then Session.setFlag ReminderType.h24 s else s) =
      flagIf24 (j :: D) s := by
  by_cases hj : s.id = j
  · simp [flagIf24, hj, Session.setFlag_id, Session.setFlag_idem, List.mem_cons]
  · simp [flagIf24, hj, List.mem_cons]

theorem runRows24_fst (beh : Behavior) (rows : List Session) (t : List Session) :
    (runRows24 beh t rows).1 = t.map (flagIf24 (flaggedIds24 beh rows)) := by
  induction rows generalizing t with
  | nil =>
      have h0 : flagIf24 (flaggedIds24 beh []) = id := by
        funext s
        simp [flagIf24, flaggedIds24]
      simp [runRows24, h0]
  | cons row rest ih =>
      cases h : beh.updateFails "sessions" row.id with
      | some msg =>
          have hd : flaggedIds24 beh (row :: rest) = flaggedIds24 beh rest := by
            simp [flaggedIds24, List.filter_cons, h]
          simp [runRows24, sendSessionReminder, h, ih, hd]
      | none =>
          have hd : flaggedIds24 beh (row :: rest) = row.id :: flaggedIds24 beh rest := by
            simp [flaggedIds24, List.filter_cons, h]
          have hstep : (sendSessionReminder beh t row ReminderType.h24).1 =
              updateSessionFlag t row.id ReminderType.h24 := by
            simp [sendSessionReminder, h]
          simp only [runRows24]
          rw [hstep, hd, ih, updateSessionFlag, List.map_map]
          congr 1
          funext s
          exact flagIf24_comp _ _ s

theorem flaggedIds24_all (beh : Behavior) (rows : List Session)
    (hu : ∀ i, beh.updateFails "sessions" i = none) :
    flaggedIds24 beh rows = rows.map Session.id := by
  unfold flaggedIds24
  congr 1
  apply List.filter_eq_self.mpr
  intro r _
  simp [hu r.id]

/-! ### Handler unfoldings -/

theorem check24_eq (beh : Behavior) (now : Int) (t : List Session)
    (hq : beh.queryFails "sessions" = none) :
    check_session_reminders_24h beh now t = runRows24 beh t (selectSessions24h now t) := by
  unfold check_session_reminders_24h check_session_reminders_24h_body
  rw [hq]

theorem check24_err (beh : Behavior) (now : Int) (t : List Session) (msg : String)
    (hq : beh.queryFails "sessions" = some msg) :
    check_session_reminders_24h beh now t =
      (t, [Action.errorLogged ("Error in 24h reminder job: " ++ msg)]) := by
  unfold check_session_reminders_24h check_session_reminders_24h_body
  rw [hq]

/-! ### No eligible row remains after a fully successful firing -/

theorem selectSessions24h_after (beh : Behavior) (now : Int) (t : List Session)
    (hu : ∀ i, beh.updateFails "sessions" i = none) :
    selectSessions24h now ((runRows24 beh t (selectSessions24h now t)).1) = [] := by
  rw [runRows24_fst, flaggedIds24_all beh _ hu]
  rw [show selectSessions24h now (t.map (flagIf24 ((selectSessions24h now t).map Session.id))) =
      List.filter _ _ from rfl]
  apply List.filter_eq_nil_iff.mpr
  intro a ha
  rcases List.mem_map.mp ha with ⟨s, hst, rfl⟩
  by_cases hD : s.id ∈ (selectSessions24h now t).map Session.id
  · simp [flagIf24, hD, Session.setFlag_scheduled_at, Session.setFlag_h24_main]
  · simp only [flagIf24, hD, if_neg, if_false]
    intro hcon
    apply hD
    apply List.mem_map.mpr
    refine ⟨s, ?_, rfl⟩
    rw [mem_selectSessions24h]
    simp only [Bool.and_eq_true, decide_eq_true_eq, beq_iff_eq] at hcon
    exact ⟨hst, hcon.1.1, hcon.1.2, hcon.2⟩

/-! ### Payment batch lemmas -/

theorem sendPaymentReminder_snd (beh : Behavior) (t : List Payment) (p : Payment) :
    (sendPaymentReminder beh t p).2 = paymentRowActions beh p := by
  cases h : beh.updateFails "payments" p.id <;>
    simp [sendPaymentReminder, paymentRowActions, h]

theorem runPaymentRows_snd (beh : Behavior) (rows : List Payment) (t : List Payment) :
    (runPaymentRows beh t rows).2 = rows.flatMap (fun row => paymentRowActions beh row) := by
  induction rows generalizing t with
  | nil => rfl
  | cons row rest ih =>
      simp [runPaymentRows, List.flatMap_cons, sendPaymentReminder_snd, ih]

theorem flagIfPay_comp (D : List Nat) (j : Nat) (p : Payment) :
    flagIfPay D (if p.id = j then { p with reminder_sent := true } else p) =
      flagIfPay (j :: D) p := by
  by_cases hj : p.id = j
  · simp [flagIfPay, hj, List.mem_cons]
  · simp [flagIfPay, hj, List.mem_cons]

theorem runPaymentRows_fst (beh : Behavior) (rows : List Payment) (t : List Payment) :
    (runPaymentRows beh t rows).1 = t.map (flagIfPay (flaggedIdsPay beh rows)) := by
  induction rows generalizing t with
  | nil =>
      have h0 : flagIfPay (flaggedIdsPay beh []) = id := by
        funext p
        simp [flagIfPay, flaggedIdsPay]
      simp [runPaymentRows, h0]
  | cons row rest ih =>
      cases h : beh.updateFails "payments" row.id with
      | some msg =>
          have hd : flaggedIdsPay beh (row :: rest) = flaggedIdsPay beh rest := by
            simp [flaggedIdsPay, List.filter_cons, h]
          simp [runPaymentRows, sendPaymentReminder, h, ih, hd]
      | none =>
          have hd : flaggedIdsPay beh (row :: rest) = row.id :: flaggedIdsPay beh rest := by
            simp [flaggedIdsPay, List.filter_cons, h]
          have hstep : (sendPaymentReminder beh t row).1 = updatePaymentFlag t row.id := by
            simp [sendPaymentReminder, h]
          simp only [runPaymentRows]
          rw [hstep, hd, ih, updatePaymentFlag, List.map_map]
          congr 1
          funext p
          exact flagIfPay_comp _ _ p

theorem checkPay_eq (beh : Behavior) (now : Int) (t : List Payment)
    (hq : beh.queryFails "payments" = none) :
    check_pending_payments beh now t = runPaymentRows beh t (selectPendingPayments now t) := by
  unfold check_pending_payments check_pending_payments_body
  rw [hq]

theorem checkPay_err (beh : Behavior) (now : Int) (t : List Payment) (msg : String)
    (hq : beh.queryFails "payments" = some msg) :
    check_pending_payments beh now t =
      (t, [Action.errorLogged ("Error in payment reminder job: " ++ msg)]) := by
  unfold check_pending_payments check_pending_payments_body
  rw [hq]

/-! ### Lead batch lemmas -/

theorem sendLeadFollowUp_fst (beh : Behavior) (t : List Lead) (l : Lead)
    (h : beh.updateFails "imported_leads" l.id = none) :
    (sendLeadFollowUp beh t l).1 = updateLeadFlag t l.id := by
  simp [sendLeadFollowUp, h]

theorem flagIfLead_comp (D : List Nat) (j : Nat) (l : Lead) :
    flagIfLead D (if l.id = j then { l with follow_up_sent := true } else l) =
      flagIfLead (j :: D) l := by
  by_cases hj : l.id = j
  · simp [flagIfLead, hj, List.mem_cons]
  · simp [flagIfLead, hj, List.mem_cons]

theorem runLeadRows_fst (beh : Behavior) (rows : List Lead) (t : List Lead) :
    (runLeadRows beh t rows).1 = t.map (flagIfLead (flaggedIdsLead beh rows)) := by
  induction rows generalizing t with
  | nil =>
      have h0 : flagIfLead (flaggedIdsLead beh []) = id := by
        funext l
        simp [flagIfLead, flaggedIdsLead]
      simp [runLeadRows, h0]
  | cons row rest ih =>
      cases h : beh.updateFails "imported_leads" row.id with
      | some msg =>
          have hd : flaggedIdsLead beh (row :: rest) = flaggedIdsLead beh rest := by
            simp [flaggedIdsLead, List.filter_cons, h]
          simp [runLeadRows, sendLeadFollowUp, h, ih, hd]
      | none =>
          have hd : flaggedIdsLead beh (row :: rest) = row.id :: flaggedIdsLead beh rest := by
            simp [flaggedIdsLead, List.filter_cons, h]
          have hstep : (sendLeadFollowUp beh t row).1 = updateLeadFlag t row.id := by
            simp [sendLeadFollowUp, h]
          simp only [runLeadRows]
          rw [hstep, hd, ih, updateLeadFlag, List.map_map]
          congr 1
          funext l
          exact flagIfLead_comp _ _ l

theorem checkLead_eq (beh : Behavior) (now : Int) (t : List Lead)
    (hq : beh.queryFails "imported_leads" = none) :
    check_lead_follow_ups beh now t = runLeadRows beh t (selectLeadFollowUps now t) := by
  unfold check_lead_follow_ups check_lead_follow_ups_body
  rw [hq]

theorem checkLead_err (beh : Behavior) (now : Int) (t : List Lead) (msg : String)
    (hq : beh.queryFails "imported_leads" = some msg) :
    check_lead_follow_ups beh now t =
      (t, [Action.errorLogged ("Error in lead follow-up job: " ++ msg)]) := by
  unfold check_lead_follow_ups check_lead_follow_ups_body
  rw [hq]

/-! ### Classification of row actions as sender invocations -/

theorem enrollmentSendActions_isSend (beh : Behavior) (st sa : String) (ml : Option String)
    (rt : ReminderType) (e : Enrollment) :
    ∀ a ∈ enrollmentSendActions beh st sa ml rt e, a.isSend = true := by
  intro a ha
  simp only [enrollmentSendActions] at ha
  rcases List.mem_append.mp ha with h | h
  · split at h <;> simp_all [Action.isSend]
  · split at h <;> simp_all [Action.isSend]

theorem sessionSendActs_isSend (beh : Behavior) (s : Session) (rt : ReminderType) :
    ∀ a ∈ sessionSendActs beh s rt, a.isSend = true := by
  intro a ha
  simp only [sessionSendActs] at ha
  rcases List.mem_flatMap.mp ha with ⟨e, _, hae⟩
  exact enrollmentSendActions_isSend _ _ _ _ _ _ a hae

theorem paymentSendActs_isSend (beh : Behavior) (p : Payment) :
    ∀ a ∈ paymentSendActs beh p, a.isSend = true := by
  intro a ha
  simp only [paymentSendActs] at ha
  rcases List.mem_append.mp ha with h | h
  · split at h <;> simp_all [Action.isSend]
  · split at h <;> simp_all [Action.isSend]

theorem leadSendActs_isSend (beh : Behavior) (l : Lead) :
    ∀ a ∈ leadSendActs beh l, a.isSend = true := by
  intro a ha
  simp only [leadSendActs] at ha
  split at ha <;> simp_all [Action.isSend]

theorem countP_eq_zero_of_isSend (l : List Action) (p : Action → Bool)
    (h : ∀ a ∈ l, a.isSend = true) (hp : ∀ a, p a = true → a.isSend = false) :
    l.countP p = 0 := by
  apply List.countP_eq_zero.mpr
  intro a ha hpa
  have h1 := h a ha
  have h2 := hp a hpa
  rw [h1] at h2
  exact Bool.noConfusion h2

/-! ### Per-available-contact-method send counts -/

theorem countEmail_enrollment (beh : Behavior) (st sa : String) (ml : Option String)
    (rt : ReminderType) (e : Enrollment) :
    countEmailActions (enrollmentSendActions beh st sa ml rt e) =
      (if ((e.profiles.getD emptyProfile).email).isSome then 1 else 0) := by
  unfold countEmailActions enrollmentSendActions
  cases he : (e.profiles.getD emptyProfile).email <;>
    cases hp : (e.profiles.getD emptyProfile).phone <;>
      simp [he, hp, List.countP_cons, List.countP_append]

theorem countWhatsapp_enrollment (beh : Behavior) (st sa : String) (ml : Option String)
    (rt : ReminderType) (e : Enrollment) :
    countWhatsappActions (enrollmentSendActions beh st sa ml rt e) =
      (if ((e.profiles.getD emptyProfile).phone).isSome then 1 else 0) := by
  unfold countWhatsappActions enrollmentSendActions
  cases he : (e.profiles.getD emptyProfile).email <;>
    cases hp : (e.profiles.getD emptyProfile).phone <;>
      simp [he, hp, List.countP_cons, List.countP_append]

theorem countEmail_sessionSendActs (beh : Behavior) (s : Session) (rt : ReminderType) :
    countEmailActions (sessionSendActs beh s rt) =
      s.enrollments.countP (fun e => ((e.profiles.getD emptyProfile).email).isSome) := by
  unfold sessionSendActs
  induction s.enrollments with
  | nil => rfl
  | cons e rest ih =>
      rw [List.flatMap_cons, List.countP_cons]
      unfold countEmailActions at *
      rw [List.countP_append, ih]
      have := countEmail_enrollment beh (s.title.getD "Upcoming Session")
        (toString s.scheduled_at) s.meetingLink rt e
      unfold countEmailActions at this
      rw [this]
      by_cases hc : ((e.profiles.getD emptyProfile).email).isSome <;> simp [hc] <;> omega

theorem countWhatsapp_sessionSendActs (beh : Behavior) (s : Session) (rt : ReminderType) :
    countWhatsappActions (sessionSendActs beh s rt) =
      s.enrollments.countP (fun e => ((e.profiles.getD emptyProfile).phone).isSome) := by
  unfold sessionSendActs
  induction s.enrollments with
  | nil => rfl
  | cons e rest ih =>
      rw [List.flatMap_cons, List.countP_cons]
      unfold countWhatsappActions at *
      rw [List.countP_append, ih]
      have := countWhatsapp_enrollment beh (s.title.getD "Upcoming Session")
        (toString s.scheduled_at) s.meetingLink rt e
      unfold countWhatsappActions at this
      rw [this]
      by_cases hc : ((e.profiles.getD emptyProfile).phone).isSome <;> simp [hc] <;> omega

/-! ### The dispatcher ignores the boolean results of the senders -/

theorem sessionSendActs_ignores_results (beh beh2 : Behavior) (s : Session) (rt : ReminderType) :
    sessionSendActs beh2 s rt = sessionSendActs beh s rt := rfl

theorem sendSessionReminder_ignores_results (beh beh2 : Behavior)
    (hu : beh2.updateFails = beh.updateFails) (t : List Session) (s : Session)
    (rt : ReminderType) :
    sendSessionReminder beh2 t s rt = sendSessionReminder beh t s rt := by
  unfold sendSessionReminder
  rw [hu, sessionSendActs_ignores_results beh beh2]

theorem runRows24_ignores_results (beh beh2 : Behavior)
    (hu : beh2.updateFails = beh.updateFails) (rows : List Session) (t : List Session) :
    runRows24 beh2 t rows = runRows24 beh t rows := by
  induction rows generalizing t with
  | nil => rfl
  | cons row rest ih =>
      simp only [runRows24]
      rw [sendSessionReminder_ignores_results beh beh2 hu, ih]

theorem check24_ignores_results (beh beh2 : Behavior)
    (hq : beh2.queryFails = beh.queryFails) (hu : beh2.updateFails = beh.updateFails)
    (now : Int) (t : List Session) :
    check_session_reminders_24h beh2 now t = check_session_reminders_24h beh now t := by
  unfold check_session_reminders_24h check_session_reminders_24h_body
  rw [hq]
  cases beh.queryFails "sessions" with
  | none => simp only [runRows24_ignores_results beh beh2 hu]
  | some msg => rfl

/-! ### A pointwise-true relation between a list and its map -/

theorem forall2_map_self_mem {α : Type _} (R : α → α → Prop) (f : α → α) (l : List α)
    (h : ∀ a ∈ l, R a (f a)) : List.Forall₂ R l (l.map f) := by
  induction l with
  | nil => exact List.Forall₂.nil
  | cons a rest ih =>
      exact List.Forall₂.cons (h a (List.mem_cons_self a rest))
        (ih (fun b hb => h b (List.mem_cons_of_mem a hb)))

/-! ### Counting flag updates in a batch trace -/

theorem flatMap_countP_le_count {α : Type _} (rows : List α) (idOf : α → Nat)
    (f : α → List Action) (p : Action → Bool) (i : Nat)
    (hrow : ∀ r, (f r).countP p ≤ if idOf r = i then 1 else 0) :
    (rows.flatMap f).countP p ≤ (rows.map idOf).count i := by
  induction rows with
  | nil => simp
  | cons r rest ih =>
      rw [List.flatMap_cons, List.countP_append, List.map_cons, List.count_cons]
      have h1 := hrow r
      by_cases hid : idOf r = i
      · simp only [hid, if_pos, beq_self_eq_true, if_true] at h1 ⊢
        omega
      · have : (idOf r == i) = false := by simp [hid]
        simp only [hid, if_neg, this, if_false] at h1 ⊢
        omega

theorem sessionRowActions_flagUpd_count (beh : Behavior) (row : Session) (i : Nat) :
    (sessionRowActions beh row ReminderType.h24).countP
        (fun a => decide (a = Action.flagUpdate "sessions" (reminderField ReminderType.h24) i)) ≤
      if row.id = i then 1 else 0 := by
  have hz : (sessionSendActs beh row ReminderType.h24).countP
      (fun a => decide (a = Action.flagUpdate "sessions" (reminderField ReminderType.h24) i)) = 0 := by
    apply countP_eq_zero_of_isSend _ _ (sessionSendActs_isSend beh row ReminderType.h24)
    intro a hpa
    rw [decide_eq_true_eq] at hpa
    subst hpa
    rfl
  unfold sessionRowActions
  cases h : beh.updateFails "sessions" row.id with
  | some msg =>
      rw [List.countP_append, hz, List.countP_cons]
      simp only [List.countP_nil]
      split <;> simp_all
  | none =>
      rw [List.countP_append, hz, List.countP_cons]
      simp only [List.countP_nil, Nat.zero_add]
      by_cases hid : row.id = i
      · subst hid
        simp
      · simp [hid]

theorem paymentRowActions_flagUpd_count (beh : Behavior) (row : Payment) (i : Nat) :
    (paymentRowActions beh row).countP
        (fun a => decide (a = Action.flagUpdate "payments" "reminder_sent" i)) ≤
      if row.id = i then 1 else 0 := by
  have hz : (paymentSendActs beh row).countP
      (fun a => decide (a = Action.flagUpdate "payments" "reminder_sent" i)) = 0 := by
    apply countP_eq_zero_of_isSend _ _ (paymentSendActs_isSend beh row)
    intro a hpa
    rw [decide_eq_true_eq] at hpa
    subst hpa
    rfl
  unfold paymentRowActions
  cases h : beh.updateFails "payments" row.id with
  | some msg =>
      rw [List.countP_append, hz, List.countP_cons]
      simp only [List.countP_nil]
      split <;> simp_all
  | none =>
      rw [List.countP_append, hz, List.countP_cons]
      simp only [List.countP_nil, Nat.zero_add]
      by_cases hid : row.id = i
      · subst hid
        simp
      · simp [hid]

theorem count_selected_le_sessions (now : Int) (t : List Session) (i : Nat) :
    ((selectSessions24h now t).map Session.id).count i ≤ (t.map Session.id).count i := by
  apply List.Sublist.count_le
  apply List.Sublist.map
  exact List.filter_sublist t

theorem count_selected_le_payments (now : Int) (t : List Payment) (i : Nat) :
    ((selectPendingPayments now t).map Payment.id).count i ≤ (t.map Payment.id).count i := by
  apply List.Sublist.count_le
  apply List.Sublist.map
  exact List.filter_sublist t

/-! ### No-recipient rows produce empty send lists -/

theorem flatMap_enrollments_nil (beh : Behavior) (st sa : String) (ml : Option String)
    (rt : ReminderType) (es : List Enrollment)
    (h : ∀ e ∈ es, (e.profiles.getD emptyProfile).email = none ∧
      (e.profiles.getD emptyProfile).phone = none) :
    es.flatMap (enrollmentSendActions beh st sa ml rt) = [] := by
  induction es with
  | nil => rfl
  | cons e rest ih =>
      rw [List.flatMap_cons]
      have he := h e (List.mem_cons_self e rest)
      rw [ih (fun b hb => h b (List.mem_cons_of_mem e hb))]
      simp [enrollmentSendActions, he.1, he.2]

theorem sessionSendActs_nil (beh : Behavior) (s : Session) (rt : ReminderType)
    (h : ∀ e ∈ s.enrollments, (e.profiles.getD emptyProfile).email = none ∧
      (e.profiles.getD emptyProfile).phone = none) :
    sessionSendActs beh s rt = [] := by
  unfold sessionSendActs
  exact flatMap_enrollments_nil beh _ _ _ rt s.enrollments h

theorem paymentSendActs_nil (beh : Behavior) (p : Payment)
    (hpe : (p.profiles.getD emptyProfile).email = none)
    (hpp : (p.profiles.getD emptyProfile).phone = none) :
    paymentSendActs beh p = [] := by
  simp [paymentSendActs, hpe, hpp]

/-! ## Claim theorems -/

/-- Claim C1: for every session whose `reminder_24h_sent` flag is already
true, a firing of the 24h job never selects it; the firing trace is exactly
the concatenated per-row actions of the selected rows (so no sender is
invoked for an unselected record); a true flag stays true; and running the
job a second time with no state change in between returns the store unchanged
with an empty trace (zero sender invocations, all flags unchanged). -/
theorem c1_idempotency (beh : Behavior) (now : Int) (t : List Session) (s : Session)
    (hq : beh.queryFails "sessions" = none)
    (hu : ∀ i, beh.updateFails "sessions" i = none)
    (hs : s ∈ t) (hflag : s.reminder_24h_sent = true) :
    s ∉ selectSessions24h now t
  ∧ (check_session_reminders_24h beh now t).2 =
      (selectSessions24h now t).flatMap (fun row => sessionRowActions beh row ReminderType.h24)
  ∧ List.Forall₂ (fun s0 s1 => s0.reminder_24h_sent = true → s1.reminder_24h_sent = true)
      t (check_session_reminders_24h beh now t).1
  ∧ check_session_reminders_24h beh now (check_session_reminders_24h beh now t).1 =
      ((check_session_reminders_24h beh now t).1, []) := by
  refine ⟨?_, ?_, ?_, ?_⟩
  · intro hmem
    rw [mem_selectSessions24h] at hmem
    rw [hflag] at hmem
    exact Bool.noConfusion hmem.2.2.2
  · rw [check24_eq beh now t hq, runRows24_snd]
  · rw [check24_eq beh now t hq, runRows24_fst]
    apply forall2_map_self_mem
    intro a _ ha
    unfold flagIf24
    split
    · exact Session.setFlag_h24_main a
    · exact ha
  · rw [check24_eq beh now t hq, check24_eq beh now _ hq,
      selectSessions24h_after beh now t hu]
    rfl

/-- Witness for C1: concrete store with an already-notified session. -/
theorem c1_idempotency_witness :
    flaggedSession ∉ selectSessions24h 0 sampleSessions
  ∧ (check_session_reminders_24h sampleBeh 0 sampleSessions).2 =
      (selectSessions24h 0 sampleSessions).flatMap
        (fun row => sessionRowActions sampleBeh row ReminderType.h24)
  ∧ List.Forall₂ (fun s0 s1 => s0.reminder_24h_sent = true → s1.reminder_24h_sent = true)
      sampleSessions (check_session_reminders_24h sampleBeh 0 sampleSessions).1
  ∧ check_session_reminders_24h sampleBeh 0
        (check_session_reminders_24h sampleBeh 0 sampleSessions).1 =
      ((check_session_reminders_24h sampleBeh 0 sampleSessions).1, []) :=
  c1_idempotency sampleBeh 0 sampleSessions flaggedSession rfl (fun _ => rfl)
    (by decide) rfl

/-- Claim C2: a session with `scheduled_at` outside the closed window
`[now+23h, now+25h]` is never selected by a 24h firing even with a false
flag; every session inside the window with a false flag ends the firing with
its flag true; and for every row the Email and WhatsApp senders are invoked
exactly once per available contact method of each enrolled recipient (hence
at most once); the firing trace is the concatenation of the selected rows'
actions. -/
theorem c2_window_correctness (beh : Behavior) (now : Int) (t : List Session)
    (hq : beh.queryFails "sessions" = none)
    (hu : ∀ i, beh.updateFails "sessions" i = none) :
    (∀ s ∈ t, (s.scheduled_at < now + 23 * 60 ∨ now + 25 * 60 < s.scheduled_at) →
        s ∉ selectSessions24h now t)
  ∧ List.Forall₂ (fun s0 s1 =>
        (now + 23 * 60 ≤ s0.scheduled_at ∧ s0.scheduled_at ≤ now + 25 * 60 ∧
          s0.reminder_24h_sent = false) → s1.reminder_24h_sent = true)
      t (check_session_reminders_24h beh now t).1
  ∧ (∀ s : Session,
        countEmailActions (sessionSendActs beh s ReminderType.h24) =
          s.enrollments.countP (fun e => ((e.profiles.getD emptyProfile).email).isSome)
      ∧ countWhatsappActions (sessionSendActs beh s ReminderType.h24) =
          s.enrollments.countP (fun e => ((e.profiles.getD emptyProfile).phone).isSome))
  ∧ (check_session_reminders_24h beh now t).2 =
      (selectSessions24h now t).flatMap (fun row => sessionRowActions beh row ReminderType.h24) := by
  refine ⟨?_, ?_, ?_, ?_⟩
  · intro s _ hout hmem
    rw [mem_selectSessions24h] at hmem
    have h1 := hmem.2.1
    have h2 := hmem.2.2.1
    rcases hout with h | h <;> omega
  · rw [check24_eq beh now t hq, runRows24_fst, flaggedIds24_all beh _ hu]
    apply forall2_map_self_mem
    intro a ha hw
    by_cases hmem : a.id ∈ (selectSessions24h now t).map Session.id
    · simp [flagIf24, hmem, Session.setFlag_h24_main]
    · exfalso
      exact hmem (List.mem_map.mpr
        ⟨a, (mem_selectSessions24h now t a).mpr ⟨ha, hw.1, hw.2.1, hw.2.2⟩, rfl⟩)
  · exact fun s => ⟨countEmail_sessionSendActs beh s ReminderType.h24,
      countWhatsapp_sessionSendActs beh s ReminderType.h24⟩
  · rw [check24_eq beh now t hq, runRows24_snd]

/-- Witness for C2: concrete store and all-succeeding behavior. -/
theorem c2_window_correctness_witness :
    (∀ s ∈ sampleSessions,
        (s.scheduled_at < 0 + 23 * 60 ∨ 0 + 25 * 60 < s.scheduled_at) →
        s ∉ selectSessions24h 0 sampleSessions)
  ∧ List.Forall₂ (fun s0 s1 =>
        (0 + 23 * 60 ≤ s0.scheduled_at ∧ s0.scheduled_at ≤ 0 + 25 * 60 ∧
          s0.reminder_24h_sent = false) → s1.reminder_24h_sent = true)
      sampleSessions (check_session_reminders_24h sampleBeh 0 sampleSessions).1
  ∧ (∀ s : Session,
        countEmailActions (sessionSendActs sampleBeh s ReminderType.h24) =
          s.enrollments.countP (fun e => ((e.profiles.getD emptyProfile).email).isSome)
      ∧ countWhatsappActions (sessionSendActs sampleBeh s ReminderType.h24) =
          s.enrollments.countP (fun e => ((e.profiles.getD emptyProfile).phone).isSome))
  ∧ (check_session_reminders_24h sampleBeh 0 sampleSessions).2 =
      (selectSessions24h 0 sampleSessions).flatMap
        (fun row => sessionRowActions sampleBeh row ReminderType.h24) :=
  c2_window_correctness sampleBeh 0 sampleSessions rfl (fun _ => rfl)

/-- Claim C3: for every processed row the flag update is the last action of
the row, after all attempted sends; per the source the senders report failure
by returning false (they catch transport errors internally), and the
dispatcher ignores those results, so a send failure changes neither the trace
nor the final store — it blocks no other recipient or channel of the row and
no later row of the batch — and the row still ends with its flag true; the
email service logs the transport failure it absorbed. -/
theorem c3_partial_failure_isolation (beh beh2 : Behavior) (now : Int) (t : List Session)
    (s : Session) (rt : ReminderType)
    (api_key to_email subject content emsg : String)
    (transport : String → String → String → Except String Nat)
    (hu : beh.updateFails "sessions" s.id = none)
    (hq2 : beh2.queryFails = beh.queryFails) (hu2 : beh2.updateFails = beh.updateFails)
    (htr : transport to_email subject content = Except.error emsg) :
    (sendSessionReminder beh t s rt).2 =
      sessionSendActs beh s rt ++ [Action.flagUpdate "sessions" (reminderField rt) s.id]
  ∧ (sessionSendActs beh s rt).all Action.isSend = true
  ∧ (sendSessionReminder beh t s rt).1 = updateSessionFlag t s.id rt
  ∧ (updateSessionFlag t s.id rt).all
      (fun x => !(x.id == s.id) || Session.sentFlag x rt) = true
  ∧ check_session_reminders_24h beh2 now t = check_session_reminders_24h beh now t
  ∧ EmailService.send_email (some api_key) transport to_email subject content =
      (false, ["Error sending email: " ++ emsg]) := by
  refine ⟨?_, ?_, ?_, ?_, ?_, ?_⟩
  · simp [sendSessionReminder, hu]
  · exact List.all_eq_true.mpr (sessionSendActs_isSend beh s rt)
  · simp [sendSessionReminder, hu]
  · apply List.all_eq_true.mpr
    intro x hx
    rcases List.mem_map.mp hx with ⟨x0, _, rfl⟩
    by_cases hid : x0.id = s.id
    · simp [hid, Session.sentFlag_setFlag]
    · simp [hid]
  · exact check24_ignores_results beh beh2 hq2 hu2 now t
  · simp [EmailService.send_email, htr]

/-- Witness for C3: the all-false-sender behavior against the all-true one,
and a raising transport. -/
theorem c3_partial_failure_isolation_witness :
    (sendSessionReminder sampleBeh sampleSessions sampleSession ReminderType.h24).2 =
      sessionSendActs sampleBeh sampleSession ReminderType.h24 ++
        [Action.flagUpdate "sessions" (reminderField ReminderType.h24) sampleSession.id]
  ∧ (sessionSendActs sampleBeh sampleSession ReminderType.h24).all Action.isSend = true
  ∧ (sendSessionReminder sampleBeh sampleSessions sampleSession ReminderType.h24).1 =
      updateSessionFlag sampleSessions sampleSession.id ReminderType.h24
  ∧ (updateSessionFlag sampleSessions sampleSession.id ReminderType.h24).all
      (fun x => !(x.id == sampleSession.id) ||
        Session.sentFlag x ReminderType.h24) = true
  ∧ check_session_reminders_24h failSendBeh 0 sampleSessions =
      check_session_reminders_24h sampleBeh 0 sampleSessions
  ∧ EmailService.send_email (some "sg-key") failTransport "a@x.com" "Subject" "Body" =
      (false, ["Error sending email: " ++ "timeout"]) :=
  c3_partial_failure_isolation sampleBeh failSendBeh 0 sampleSessions sampleSession
    ReminderType.h24 "sg-key" "a@x.com" "Subject" "Body" "timeout" failTransport
    rfl rfl rfl rfl

/-- Claim C4: a selected row with zero resolvable recipients — empty joined
enrollment set, or joined profiles missing/contactless — is still processed
by the dispatcher into exactly one flag update (flag false to true), with
zero sender invocations and no error in the trace; this holds for the
session dispatcher and for the payment dispatcher. -/
theorem c4_no_recipient_safety (beh : Behavior) (ts : List Session) (s : Session)
    (rt : ReminderType) (tp : List Payment) (p : Payment)
    (hus : beh.updateFails "sessions" s.id = none)
    (hup : beh.updateFails "payments" p.id = none)
    (hse : ∀ e ∈ s.enrollments, (e.profiles.getD emptyProfile).email = none ∧
      (e.profiles.getD emptyProfile).phone = none)
    (hpe : (p.profiles.getD emptyProfile).email = none)
    (hpp : (p.profiles.getD emptyProfile).phone = none) :
    sendSessionReminder beh ts s rt =
      (updateSessionFlag ts s.id rt, [Action.flagUpdate "sessions" (reminderField rt) s.id])
  ∧ sendPaymentReminder beh tp p =
      (updatePaymentFlag tp p.id, [Action.flagUpdate "payments" "reminder_sent" p.id])
  ∧ (updateSessionFlag ts s.id rt).all
      (fun x => !(x.id == s.id) || Session.sentFlag x rt) = true
  ∧ (updatePaymentFlag tp p.id).all
      (fun x => !(x.id == p.id) || x.reminder_sent) = true := by
  refine ⟨?_, ?_, ?_, ?_⟩
  · have hacts := sessionSendActs_nil beh s rt hse
    simp [sendSessionReminder, hus, hacts]
  · have hacts := paymentSendActs_nil beh p hpe hpp
    simp [sendPaymentReminder, hup, hacts]
  · apply List.all_eq_true.mpr
    intro x hx
    rcases List.mem_map.mp hx with ⟨x0, _, rfl⟩
    by_cases hid : x0.id = s.id
    · simp [hid, Session.sentFlag_setFlag]
    · simp [hid]
  · apply List.all_eq_true.mpr
    intro x hx
    rcases List.mem_map.mp hx with ⟨x0, _, rfl⟩
    by_cases hid : x0.id = p.id
    · simp [hid]
    · simp [hid]

/-- Witness for C4: a session whose only enrollment has a missing joined
profile, and a payment with a missing joined profile. -/
theorem c4_no_recipient_safety_witness :
    sendSessionReminder sampleBeh sampleSessions missingProfileSession ReminderType.h24 =
      (updateSessionFlag sampleSessions missingProfileSession.id ReminderType.h24,
        [Action.flagUpdate "sessions" (reminderField ReminderType.h24) missingProfileSession.id])
  ∧ sendPaymentReminder sampleBeh samplePayments noRecipPayment =
      (updatePaymentFlag samplePayments noRecipPayment.id,
        [Action.flagUpdate "payments" "reminder_sent" noRecipPayment.id])
  ∧ (updateSessionFlag sampleSessions missingProfileSession.id ReminderType.h24).all
      (fun x => !(x.id == missingProfileSession.id) ||
        Session.sentFlag x ReminderType.h24) = true
  ∧ (updatePaymentFlag samplePayments noRecipPayment.id).all
      (fun x => !(x.id == noRecipPayment.id) || x.reminder_sent) = true :=
  c4_no_recipient_safety sampleBeh sampleSessions missingProfileSession ReminderType.h24
    samplePayments noRecipPayment rfl rfl (by decide) rfl rfl

/-- Claim C5: when the windowed store query of a job handler raises, the
firing ends with the store unchanged and a single error-log action naming the
job — no flag update and no sender invocation — and the handler returns
normally (its failure boundary catches the exception), for the 24h session
job, the payment job and the lead job. -/
theorem c5_query_failure_boundary (beh : Behavior) (now : Int) (ts : List Session)
    (tp : List Payment) (tl : List Lead) (m1 m2 m3 : String)
    (h1 : beh.queryFails "sessions" = some m1)
    (h2 : beh.queryFails "payments" = some m2)
    (h3 : beh.queryFails "imported_leads" = some m3) :
    check_session_reminders_24h beh now ts =
      (ts, [Action.errorLogged ("Error in 24h reminder job: " ++ m1)])
  ∧ check_pending_payments beh now tp =
      (tp, [Action.errorLogged ("Error in payment reminder job: " ++ m2)])
  ∧ check_lead_follow_ups beh now tl =
      (tl, [Action.errorLogged ("Error in lead follow-up job: " ++ m3)]) :=
  ⟨check24_err beh now ts m1 h1, checkPay_err beh now tp m2 h2,
    checkLead_err beh now tl m3 h3⟩

/-- Witness for C5: the behavior whose every query raises. -/
theorem c5_query_failure_boundary_witness :
    check_session_reminders_24h failQueryBeh 0 sampleSessions =
      (sampleSessions, [Action.errorLogged ("Error in 24h reminder job: " ++ "connection refused")])
  ∧ check_pending_payments failQueryBeh 0 samplePayments =
      (samplePayments,
        [Action.errorLogged ("Error in payment reminder job: " ++ "connection refused")])
  ∧ check_lead_follow_ups failQueryBeh 0 sampleLeads =
      (sampleLeads,
        [Action.errorLogged ("Error in lead follow-up job: " ++ "connection refused")]) :=
  c5_query_failure_boundary failQueryBeh 0 sampleSessions samplePayments sampleLeads
    "connection refused" "connection refused" "connection refused" rfl rfl rfl

/-- Claim C6: `register_all_jobs` registers exactly six jobs, their ids are
pairwise distinct, and their triggers are those of the job registry table:
24h session reminders every 10 minutes, 15min session reminders every 5
minutes, recording notifications every 30 minutes, assignment reminders on a
6-hour cron alignment, payment follow-ups daily at 10:00 UTC and lead
follow-ups daily at 09:00 UTC. -/
theorem c6_job_registry :
    register_all_jobs.length = 6
  ∧ (register_all_jobs.map JobDef.id).Nodup
  ∧ register_all_jobs.map (fun j => (j.id, j.trig)) =
      [("session_reminders_24h", Trigger.interval 10),
       ("session_reminders_15min", Trigger.interval 5),
       ("recording_notifications", Trigger.interval 30),
       ("assignment_reminders", Trigger.cronEveryNHours 6),
       ("payment_reminders", Trigger.cronDailyAt 10 0),
       ("lead_follow_ups", Trigger.cronDailyAt 9 0)] := by
  refine ⟨rfl, ?_, rfl⟩
  decide

/-- Claim C7 (the fire-dispatch loop is APScheduler, third-party code not in
this repository, modelled from the spec; the configuration itself is embedded
from `JobScheduler.__init__`): with `job_defaults = (coalesce := true,
max_instances := 1, misfire_grace_time := 300s)`, a fresh fire arriving while
an instance of the same job is running is dropped, not run; the running-
instance count never exceeds one; a fire staler than the 300-second grace
window is discarded rather than run late; and a nonempty backlog of missed
fires is coalesced into a single catch-up run. -/
theorem c7_concurrency_guard (r : Nat) (now ft staleNow staleFt : Int) (missed : List Int)
    (hrun : 1 ≤ r) (hfresh : now - ft ≤ 300) (hstale : 300 < staleNow - staleFt)
    (hmiss : missed ≠ []) :
    schedulerJobDefaults = ⟨true, 1, 300⟩
  ∧ dispatchFire schedulerJobDefaults r now ft = FireOutcome.droppedRunning
  ∧ (∀ n : Nat, n ≤ 1 → stepFire schedulerJobDefaults n now ft ≤ 1)
  ∧ dispatchFire schedulerJobDefaults r staleNow staleFt = FireOutcome.discardedStale
  ∧ (coalesceMissedFires schedulerJobDefaults missed).length = 1 := by
  refine ⟨rfl, ?_, ?_, ?_, ?_⟩
  · unfold dispatchFire
    rw [if_neg (by simp [schedulerJobDefaults]; omega),
      if_pos (by simpa [schedulerJobDefaults] using hrun)]
  · intro n hn
    by_cases hmax : (1 : Nat) ≤ n
    · have hd : dispatchFire schedulerJobDefaults n now ft = FireOutcome.droppedRunning := by
        unfold dispatchFire
        rw [if_neg (by simp [schedulerJobDefaults]; omega),
          if_pos (by simpa [schedulerJobDefaults] using hmax)]
      unfold stepFire
      rw [hd]
      exact hn
    · have h0 : n = 0 := by omega
      subst h0
      unfold stepFire
      split <;> omega
  · unfold dispatchFire
    rw [if_pos (by simp [schedulerJobDefaults]; omega)]
  · cases missed with
    | nil => exact absurd rfl hmiss
    | cons f fs => simp [coalesceMissedFires, schedulerJobDefaults]

/-- Witness for C7: one running instance, a fresh fire, a stale fire, and a
two-element missed-fire backlog. -/
theorem c7_concurrency_guard_witness :
    schedulerJobDefaults = ⟨true, 1, 300⟩
  ∧ dispatchFire schedulerJobDefaults 1 10 0 = FireOutcome.droppedRunning
  ∧ (∀ n : Nat, n ≤ 1 → stepFire schedulerJobDefaults n 10 0 ≤ 1)
  ∧ dispatchFire schedulerJobDefaults 1 400 0 = FireOutcome.discardedStale
  ∧ (coalesceMissedFires schedulerJobDefaults [5, 9]).length = 1 :=
  c7_concurrency_guard 1 10 0 400 0 [5, 9] (by decide) (by decide) (by decide) (by decide)

/-- Claim C8: the idempotency flags are one-shot latches: after any firing of
the 24h session job, the payment job or the lead job, every row whose flag
was true still has it true (for sessions, both reminder flags; the updates
only ever write `true`), and a firing performs the false-to-true flag write
at most once per record id and reminder kind. -/
theorem c8_one_shot_latch (beh : Behavior) (now : Int) (ts : List Session)
    (tp : List Payment) (tl : List Lead) (i : Nat)
    (hns : (ts.map Session.id).Nodup) (hnp : (tp.map Payment.id).Nodup) :
    List.Forall₂ (fun s0 s1 =>
        (s0.reminder_24h_sent = true → s1.reminder_24h_sent = true) ∧
        (s0.reminder_15min_sent = true → s1.reminder_15min_sent = true))
      ts (check_session_reminders_24h beh now ts).1
  ∧ List.Forall₂ (fun p0 p1 => p0.reminder_sent = true → p1.reminder_sent = true)
      tp (check_pending_payments beh now tp).1
  ∧ List.Forall₂ (fun l0 l1 => l0.follow_up_sent = true → l1.follow_up_sent = true)
      tl (check_lead_follow_ups beh now tl).1
  ∧ (check_session_reminders_24h beh now ts).2.countP
      (fun a => decide (a = Action.flagUpdate "sessions" (reminderField ReminderType.h24) i)) ≤ 1
  ∧ (check_pending_payments beh now tp).2.countP
      (fun a => decide (a = Action.flagUpdate "payments" "reminder_sent" i)) ≤ 1 := by
  refine ⟨?_, ?_, ?_, ?_, ?_⟩
  · cases hq : beh.queryFails "sessions" with
    | some msg =>
        rw [check24_err beh now ts msg hq]
        exact List.forall₂_same.mpr (fun x _ => ⟨fun h => h, fun h => h⟩)
    | none =>
        rw [check24_eq beh now ts hq, runRows24_fst]
        apply forall2_map_self_mem
        intro a _
        constructor
        · intro h
          unfold flagIf24
          split
          · exact Session.setFlag_h24_main a
          · exact h
        · intro h
          unfold flagIf24
          split
          · rw [Session.setFlag_h24_other]
            exact h
          · exact h
  · cases hq : beh.queryFails "payments" with
    | some msg =>
        rw [checkPay_err beh now tp msg hq]
        exact List.forall₂_same.mpr (fun x _ => fun h => h)
    | none =>
        rw [checkPay_eq beh now tp hq, runPaymentRows_fst]
        apply forall2_map_self_mem
        intro a _ h
        unfold flagIfPay
        split
        · rfl
        · exact h
  · cases hq : beh.queryFails "imported_leads" with
    | some msg =>
        rw [checkLead_err beh now tl msg hq]
        exact List.forall₂_same.mpr (fun x _ => fun h => h)
    | none =>
        rw [checkLead_eq beh now tl hq, runLeadRows_fst]
        apply forall2_map_self_mem
        intro a _ h
        unfold flagIfLead
        split
        · rfl
        · exact h
  · cases hq : beh.queryFails "sessions" with
    | some msg =>
        rw [check24_err beh now ts msg hq]
        simp [List.countP_cons]
    | none =>
        rw [check24_eq beh now ts hq, runRows24_snd]
        have h1 := flatMap_countP_le_count (selectSessions24h now ts) Session.id
          (fun row => sessionRowActions beh row ReminderType.h24)
          (fun a => decide (a = Action.flagUpdate "sessions" (reminderField ReminderType.h24) i)) i
          (fun r => sessionRowActions_flagUpd_count beh r i)
        have h2 := count_selected_le_sessions now ts i
        have h3 := List.nodup_iff_count_le_one.mp hns i
        omega
  · cases hq : beh.queryFails "payments" with
    | some msg =>
        rw [checkPay_err beh now tp msg hq]
        simp [List.countP_cons]
    | none =>
        rw [checkPay_eq beh now tp hq, runPaymentRows_snd]
        have h1 := flatMap_countP_le_count (selectPendingPayments now tp) Payment.id
          (fun row => paymentRowActions beh row)
          (fun a => decide (a = Action.flagUpdate "payments" "reminder_sent" i)) i
          (fun r => paymentRowActions_flagUpd_count beh r i)
        have h2 := count_selected_le_payments now tp i
        have h3 := List.nodup_iff_count_le_one.mp hnp i
        omega

/-- Witness for C8: the sample tables (distinct ids) and record id 1. -/
theorem c8_one_shot_latch_witness :
    List.Forall₂ (fun s0 s1 =>
        (s0.reminder_24h_sent = true → s1.reminder_24h_sent = true) ∧
        (s0.reminder_15min_sent = true → s1.reminder_15min_sent = true))
      sampleSessions (check_session_reminders_24h sampleBeh 0 sampleSessions).1
  ∧ List.Forall₂ (fun p0 p1 => p0.reminder_sent = true → p1.reminder_sent = true)
      samplePayments (check_pending_payments sampleBeh 0 samplePayments).1
  ∧ List.Forall₂ (fun l0 l1 => l0.follow_up_sent = true → l1.follow_up_sent = true)
      sampleLeads (check_lead_follow_ups sampleBeh 0 sampleLeads).1
  ∧ (check_session_reminders_24h sampleBeh 0 sampleSessions).2.countP
      (fun a => decide (a = Action.flagUpdate "sessions" (reminderField ReminderType.h24) 1)) ≤ 1
  ∧ (check_pending_payments sampleBeh 0 samplePayments).2.countP
      (fun a => decide (a = Action.flagUpdate "payments" "reminder_sent" 1)) ≤ 1 :=
  c8_one_shot_latch sampleBeh 0 sampleSessions samplePayments sampleLeads 1
    (by decide) (by decide)

/-- Claim C9: every send of a row is performed strictly before the row's flag
write; when the flag update raises after the sends, the row-level handler
logs the error and leaves the store (hence the flag) unchanged, so the same
row is selected again by the next firing and each of its send actions is
emitted again — duplicate physical delivery, since no record of the completed
sends is kept. -/
theorem c9_resend_after_update_failure (beh : Behavior) (now : Int) (t : List Session)
    (s : Session) (msg : String)
    (hq : beh.queryFails "sessions" = none)
    (hu : beh.updateFails "sessions" s.id = some msg)
    (hsel : s ∈ selectSessions24h now t) :
    (sendSessionReminder beh t s ReminderType.h24).2 =
      sessionSendActs beh s ReminderType.h24 ++
        [Action.errorLogged ("Error sending reminder for session " ++ toString s.id ++
          ": " ++ msg)]
  ∧ (sendSessionReminder beh t s ReminderType.h24).1 = t
  ∧ s ∈ (check_session_reminders_24h beh now t).1
  ∧ s ∈ selectSessions24h now (check_session_reminders_24h beh now t).1
  ∧ (∀ a ∈ sessionSendActs beh s ReminderType.h24,
        a ∈ (check_session_reminders_24h beh now t).2
      ∧ a ∈ (check_session_reminders_24h beh now
          (check_session_reminders_24h beh now t).1).2) := by
  have hsmem := (mem_selectSessions24h now t s).mp hsel
  have hfix : flagIf24 (flaggedIds24 beh (selectSessions24h now t)) s = s := by
    unfold flagIf24
    rw [if_neg]
    intro hD
    rcases List.mem_map.mp hD with ⟨r, hr, hrid⟩
    rcases List.mem_filter.mp hr with ⟨_, hrn⟩
    rw [hrid, hu] at hrn
    exact Bool.noConfusion hrn
  have hr1 : (check_session_reminders_24h beh now t).1 =
      t.map (flagIf24 (flaggedIds24 beh (selectSessions24h now t))) := by
    rw [check24_eq beh now t hq, runRows24_fst]
  have hmem1 : s ∈ (check_session_reminders_24h beh now t).1 := by
    rw [hr1]
    exact List.mem_map.mpr ⟨s, hsmem.1, hfix⟩
  have hsel2 : s ∈ selectSessions24h now (check_session_reminders_24h beh now t).1 := by
    rw [mem_selectSessions24h]
    exact ⟨hmem1, hsmem.2.1, hsmem.2.2.1, hsmem.2.2.2⟩
  have hrow : ∀ a ∈ sessionSendActs beh s ReminderType.h24,
      a ∈ sessionRowActions beh s ReminderType.h24 := by
    intro a ha
    unfold sessionRowActions
    rw [hu]
    exact List.mem_append.mpr (Or.inl ha)
  refine ⟨?_, ?_, hmem1, hsel2, ?_⟩
  · simp [sendSessionReminder, hu]
  · simp [sendSessionReminder, hu]
  · intro a ha
    constructor
    · rw [check24_eq beh now t hq, runRows24_snd]
      exact List.mem_flatMap.mpr ⟨s, hsel, hrow a ha⟩
    · rw [check24_eq beh now _ hq, runRows24_snd]
      exact List.mem_flatMap.mpr ⟨s, hsel2, hrow a ha⟩

/-- Witness for C9: a behavior whose flag update raises for session row 1. -/
theorem c9_resend_after_update_failure_witness :
    (sendSessionReminder failUpdateBeh sampleSessions sampleSession ReminderType.h24).2 =
      sessionSendActs failUpdateBeh sampleSession ReminderType.h24 ++
        [Action.errorLogged ("Error sending reminder for session " ++
          toString sampleSession.id ++ ": " ++ "write timeout")]
  ∧ (sendSessionReminder failUpdateBeh sampleSessions sampleSession ReminderType.h24).1 =
      sampleSessions
  ∧ sampleSession ∈ (check_session_reminders_24h failUpdateBeh 0 sampleSessions).1
  ∧ sampleSession ∈ selectSessions24h 0
      (check_session_reminders_24h failUpdateBeh 0 sampleSessions).1
  ∧ (∀ a ∈ sessionSendActs failUpdateBeh sampleSession ReminderType.h24,
        a ∈ (check_session_reminders_24h failUpdateBeh 0 sampleSessions).2
      ∧ a ∈ (check_session_reminders_24h failUpdateBeh 0
          (check_session_reminders_24h failUpdateBeh 0 sampleSessions).1).2) :=
  c9_resend_after_update_failure failUpdateBeh 0 sampleSessions sampleSession
    "write timeout" rfl (by decide) (by decide)

/-- Claim C10: `get_scheduler` raises `RuntimeError` exactly when no scheduler
instance exists in the process (never initialized, or cleared by
`shutdown_scheduler`); otherwise it returns the instance `init_scheduler`
created, and repeated `init_scheduler` calls construct, register and start at
most one scheduler, returning the same instance and state each time. -/
theorem c10_scheduler_singleton (g : GlobalSchedulerState) (s : SchedulerInstance) :
    get_scheduler ⟨g.nextUid, none⟩ =
      Except.error "Scheduler not initialized. Call init_scheduler() first."
  ∧ get_scheduler ⟨g.nextUid, some s⟩ = Except.ok s
  ∧ init_scheduler (init_scheduler g).2 = init_scheduler g
  ∧ get_scheduler (init_scheduler g).2 = Except.ok (init_scheduler g).1
  ∧ (init_scheduler ⟨g.nextUid, none⟩).1 =
      SchedulerInstance.start (SchedulerInstance.registerAll (JobScheduler.new g.nextUid))
  ∧ (init_scheduler ⟨g.nextUid, some s⟩).1 = s
  ∧ (shutdown_scheduler g).inst = none
  ∧ get_scheduler (shutdown_scheduler g) =
      Except.error "Scheduler not initialized. Call init_scheduler() first." := by
  cases g with
  | mk n inst =>
      cases inst with
      | none => exact ⟨rfl, rfl, rfl, rfl, rfl, rfl, rfl, rfl⟩
      | some s0 => exact ⟨rfl, rfl, rfl, rfl, rfl, rfl, rfl, rfl⟩

end StudentBusiness
